import Mathlib

/-!
Shallow embedding of the audio capture / live transcription pipeline of
the relational-ai-therapist repository.

The embedded code is:
* `src/client/src/hooks/useAudioRecording.ts` (the variant cited by the
  claims: lines 1-151): `startRecording`, `stopRecording`, the
  `recorder.ondataavailable` handler including the `processedTranscripts`
  sentence filter, and the `recorder.onerror` handler;
* the api client (`fetchWithError`, `analyzeTranscript`);
* `src/server/routes.ts` (`/api/analyze` handler);
* the `Home` component handlers (`onTranscript`, `onAnalysis`) that own
  the `conversation` and `analysis` logs.

React semantics that matter for fidelity and are modelled explicitly:
the `ondataavailable` handler is installed once per session and closes
over the `processedTranscripts` value and the `onAnalysis` prop (which in
turn closed over `conversation`) from the render in which `startRecording`
was created.  Those captured values never change for the lifetime of the
handler, while `setProcessedTranscripts` / `setConversation` /
`setAnalysis` update the current component state.  The captured values are
modelled as a `SessionClosure` produced by `startRecording`; the current
component state is the `AppState`.
-/

namespace Therapy

/-- `{ text: string }`, the parsed body of a `/api/transcribe` response. -/
structure Transcript where
  text : String
deriving Repr, DecidableEq

/-- The parsed JSON body of a `/api/analyze` response.  At runtime the
rating is an arbitrary string: the TypeScript annotation
`rating: "bad" | "medium" | "good"` is compile-time only and nothing in
the code checks the value. -/
structure AnalysisBody where
  rating : String
  feedback : String
deriving Repr, DecidableEq

/-- One entry of `Home`'s `conversation` state
(`{ text, speaker, timestamp }`). -/
structure Utterance where
  text : String
  speaker : Nat
  timestamp : Nat
deriving Repr, DecidableEq

/-- One entry of `Home`'s `analysis` state
(`{ rating, feedback, utteranceIndex }`). -/
structure AnalysisEntry where
  rating : String
  feedback : String
  utteranceIndex : Nat
deriving Repr, DecidableEq

/-- An audio chunk (`event.data`); `size` is the byte count the handler
guards on. -/
structure Blob where
  bytes : List Nat
deriving Repr, DecidableEq

def Blob.size (b : Blob) : Nat := b.bytes.length

/-- `MediaRecorder.state` (the two values this code distinguishes). -/
inductive RecState
  | recording
  | inactive
deriving Repr, DecidableEq

/-- The `MediaRecorder` together with the liveness of its stream's
tracks (`mediaRecorder.stream.getTracks()`: all stopped or not). -/
structure Recorder where
  state : RecState
  tracksLive : Bool
deriving Repr, DecidableEq

/-- Observable effects of the `ondataavailable` handler, in the order the
code performs them: issuing `transcribeAudio`, invoking `onTranscript`
(which appends to `conversation`), issuing `analyzeTranscript`, invoking
`onAnalysis` (which appends to `analysis`), and `setError`. -/
inductive Event
  | transcribeReq (chunks : List Blob)
  | utteranceAdd (u : Utterance)
  | analysisReq (text : String)
  | analysisAdd (e : AnalysisEntry)
  | errorSet (msg : String)
deriving Repr, DecidableEq

/-- The combined component state: `Home`'s `conversation` and `analysis`
logs, the hook's `processedTranscripts`, `chunksRef.current`,
`mediaRecorder` and `error`, plus a ghost `trace` of the effects
performed (used only to state ordering properties; it never influences
behaviour). -/
structure AppState where
  conversation : List Utterance
  analysis : List AnalysisEntry
  processedTranscripts : List String
  chunks : List Blob
  mediaRecorder : Option Recorder
  error : Option String
  trace : List Event
deriving Repr, DecidableEq

/-- The values captured by the session's `ondataavailable` closure at the
moment `startRecording` installed it: the `processedTranscripts` set it
filters against, and the `conversation.length` captured by the
`onAnalysis` prop it calls.  Fixed for the lifetime of the session's
handler. -/
structure SessionClosure where
  snapshot : List String
  capturedConversationLength : Nat
deriving Repr, DecidableEq

def initialState : AppState :=
  { conversation := []
    analysis := []
    processedTranscripts := []
    chunks := []
    mediaRecorder := none
    error := none
    trace := [] }

/-! ## Server and api client (`src/server/routes.ts`, api lib) -/

/-- An HTTP response as the client observes it: 2xx with a parsed JSON
body, or a non-2xx status. -/
inductive HttpResponse (α : Type)
  | success (body : α)
  | failure (status : Nat)
deriving Repr, DecidableEq

/-- The `/api/analyze` handler: the OpenAI chat completion's JSON content
(already parsed; `none` models a missing content or a thrown error) is
echoed verbatim with `res.json(analysis)` — there is no validation of the
`rating` field — and any error becomes a 500. -/
def analyzeRoute (llmContent : Option AnalysisBody) : HttpResponse AnalysisBody :=
  match llmContent with
  | some a => HttpResponse.success a
  | none => HttpResponse.failure 500

/-- `fetchWithError`: throws `HTTP error! status: ...` on a non-ok
response, otherwise returns the parsed body. -/
def fetchWithError {α : Type} (r : HttpResponse α) : Except String α :=
  match r with
  | HttpResponse.success b => Except.ok b
  | HttpResponse.failure status => Except.error ("HTTP error! status: " ++ toString status)

/-- `analyzeTranscript`: POSTs the text and passes the response through
`fetchWithError`; no inspection of the body. -/
def analyzeTranscript (r : HttpResponse AnalysisBody) : Except String AnalysisBody :=
  fetchWithError r

/-- The three ratings the data model allows (`"bad" | "medium" | "good"`). -/
def allowedRatings : List String := ["bad", "medium", "good"]

/-! ## The hook (`useAudioRecording.ts`, first variant) -/

/-- `determineSpeaker`: `Math.random() < 0.5 ? 1 : 2`; the random draw is
an explicit argument. -/
def determineSpeaker (coin : Bool) : Nat := if coin then 1 else 2

/-- JavaScript `String.prototype.trim`, written by structural recursion
on the character list so that it evaluates inside the kernel. -/
def jsTrim (s : String) : String :=
  ⟨((s.data.dropWhile Char.isWhitespace).reverse.dropWhile Char.isWhitespace).reverse⟩

def jsSplitAux (p : Char → Bool) : List Char → List Char → List String
  | [], acc => [⟨acc.reverse⟩]
  | c :: rest, acc =>
      if p c then ⟨acc.reverse⟩ :: jsSplitAux p rest []
      else jsSplitAux p rest (c :: acc)

/-- Split a string at every character satisfying `p` (runs of separators
produce empty pieces, which the callers filter away). -/
def jsSplit (p : Char → Bool) (s : String) : List String :=
  jsSplitAux p s.data []

/-- JavaScript `Array.prototype.join`. -/
def jsJoin (sep : String) : List String → String
  | [] => ""
  | [x] => x
  | x :: xs => x ++ sep ++ jsJoin sep xs

/-- `transcript.text.split(/[.!?]+/).filter(s => s.trim())`: split on
sentence punctuation and keep the pieces with non-whitespace content.
(Splitting at each separator character and then filtering out
whitespace-only pieces agrees with the JS regex split followed by the
same filter: a run of separators only contributes empty pieces.) -/
def splitSentences (text : String) : List String :=
  (jsSplit (fun c => c == '.' || c == '!' || c == '?') text).filter
    (fun s => jsTrim s != "")

/-- The `newSentences` computation: the sentences whose trimmed form is
non-empty and not in the captured `processedTranscripts` snapshot. -/
def newSentencesOf (snapshot : List String) (text : String) : List String :=
  (splitSentences text).filter (fun sentence =>
    jsTrim sentence != "" && !(snapshot.contains (jsTrim sentence)))

/-- `newSentences.join('. ').trim() + '.'` — the text handed to
`onTranscript` and `analyzeTranscript`. -/
def emittedText (snapshot : List String) (text : String) : String :=
  jsTrim (jsJoin ". " (newSentencesOf snapshot text)) ++ "."

/-- `startRecording` (success path): resets `chunksRef.current`, creates
the recorder with live stream tracks, and installs the
`ondataavailable` handler, whose closure captures the current
`processedTranscripts` and the current `conversation.length` (via the
`onAnalysis` prop).  `processedTranscripts` itself is NOT reset here. -/
def startRecording (s : AppState) : AppState × SessionClosure :=
  ({ s with
      chunks := []
      mediaRecorder := some { state := RecState.recording, tracksLive := true } },
   { snapshot := s.processedTranscripts
     capturedConversationLength := s.conversation.length })

/-- The blob actually sent to `/api/transcribe`:
`new Blob(chunksRef.current)` after the push, i.e. all accumulated
chunks. -/
def transcriptionRequest (s : AppState) (blob : Blob) : List Blob :=
  s.chunks ++ [blob]

/-- The synchronous part of `ondataavailable`: for a non-empty data
event, push the chunk and issue the transcription request for the
accumulated blob.  The rest of the handler runs when that request
resolves (`transcriptionResolved`). -/
def dataArrival (blob : Blob) (s : AppState) : AppState :=
  if blob.size > 0 then
    { s with
        chunks := s.chunks ++ [blob]
        trace := s.trace ++ [Event.transcribeReq (s.chunks ++ [blob])] }
  else s

/-- The continuation of `ondataavailable` after `await transcribeAudio`
resolves, applied to whatever the component state is at that moment.
`cl` is the handler's captured closure; `anaResp` is the outcome of the
`analyzeTranscript` call if one is made; `coin` and `now` are the
`Math.random()` draw and `Date.now()`.  A rejection of either network
call lands in the catch block, which sets the error message; the catch
never removes an already appended Utterance.  Marking sentences as
processed happens after `onAnalysis`, so it is skipped when the
analysis call fails. -/
def transcriptionResolved (cl : SessionClosure) (tr : Except String Transcript)
    (anaResp : Except String AnalysisBody) (coin : Bool) (now : Nat)
    (s : AppState) : AppState :=
  match tr with
  | Except.error _ =>
      { s with
          error := some "Failed to process audio chunk"
          trace := s.trace ++ [Event.errorSet "Failed to process audio chunk"] }
  | Except.ok t =>
      if t.text = "" then s
      else
        let newSentences := newSentencesOf cl.snapshot t.text
        if newSentences = [] then s
        else
          let newText := emittedText cl.snapshot t.text
          let utt : Utterance :=
            { text := newText, speaker := determineSpeaker coin, timestamp := now }
          let s1 :=
            { s with
                conversation := s.conversation ++ [utt]
                trace := s.trace ++ [Event.utteranceAdd utt, Event.analysisReq newText] }
          match anaResp with
          | Except.error _ =>
              { s1 with
                  error := some "Failed to process audio chunk"
                  trace := s1.trace ++ [Event.errorSet "Failed to process audio chunk"] }
          | Except.ok a =>
              let entry : AnalysisEntry :=
                { rating := a.rating, feedback := a.feedback
                  utteranceIndex := cl.capturedConversationLength }
              { s1 with
                  analysis := s1.analysis ++ [entry]
                  processedTranscripts :=
                    s1.processedTranscripts ++ newSentences.map jsTrim
                  trace := s1.trace ++ [Event.analysisAdd entry] }

/-- One full tick of the handler, run to completion with no interleaving:
data arrival followed by the resolution continuation.  An empty data
event does nothing at all. -/
def tick (cl : SessionClosure) (blob : Blob) (tr : Except String Transcript)
    (anaResp : Except String AnalysisBody) (coin : Bool) (now : Nat)
    (s : AppState) : AppState :=
  if blob.size > 0 then
    transcriptionResolved cl tr anaResp coin now (dataArrival blob s)
  else s

/-- `stopRecording`: guarded on `mediaRecorder?.state === 'recording'`.
Inside the guard it stops the recorder, stops every stream track, and
clears `processedTranscripts` and `chunksRef.current`.  Outside the
guard (no recorder, or a recorder that is already inactive) it does
nothing. -/
def stopRecording (s : AppState) : AppState :=
  match s.mediaRecorder with
  | some r =>
      if r.state = RecState.recording then
        { s with
            mediaRecorder := some { state := RecState.inactive, tracksLive := false }
            processedTranscripts := []
            chunks := [] }
      else s
  | none => s

/-- A fatal encoder error while recording: the platform transitions the
`MediaRecorder` to inactive, and the code's `recorder.onerror` handler
runs — it only calls `setError('Recording error occurred')`.  It does
not stop the stream tracks. -/
def encoderError (s : AppState) : AppState :=
  { s with
      error := some "Recording error occurred"
      mediaRecorder := s.mediaRecorder.map (fun r => { r with state := RecState.inactive }) }

/-- Whether a live microphone handle exists: some current recorder's
stream tracks are still running. -/
def micLive (s : AppState) : Bool :=
  match s.mediaRecorder with
  | some r => r.tracksLive
  | none => false

/-- The texts sent to the analysis adapter, read off the ghost trace. -/
def analysisReqTexts (tr : List Event) : List String :=
  tr.filterMap (fun e =>
    match e with
    | Event.analysisReq t => some t
    | _ => none)

/-- The utterances appended, read off the ghost trace. -/
def utteranceAdds (tr : List Event) : List Utterance :=
  tr.filterMap (fun e =>
    match e with
    | Event.utteranceAdd u => some u
    | _ => none)

/-! ## Claim theorems -/

/-- Claim C1, refuting theorem at a concrete input: when the remote
analysis service returns the out-of-enumeration rating `excellent` with
a 2xx status, `/api/analyze` echoes it verbatim, `analyzeTranscript`
resolves successfully with it, and a tick delivers it into the UI
analysis log with no error of any kind — the value is passed through,
not rejected. -/
theorem c1_invalid_rating_reaches_ui :
    analyzeRoute (some ⟨"excellent", "Great"⟩) = HttpResponse.success ⟨"excellent", "Great"⟩ ∧
    analyzeTranscript (analyzeRoute (some ⟨"excellent", "Great"⟩)) =
      Except.ok ⟨"excellent", "Great"⟩ ∧
    allowedRatings.contains "excellent" = false ∧
    (let sc := startRecording initialState
     let s2 := tick sc.2 ⟨[7]⟩ (Except.ok ⟨"Hello there."⟩)
       (analyzeTranscript (analyzeRoute (some ⟨"excellent", "Great"⟩))) true 0 sc.1
     s2.analysis = [⟨"excellent", "Great", 0⟩] ∧ s2.error = none) :=
  ⟨rfl, rfl, by decide, by decide, by decide⟩

/-- The C2 scenario: a fresh session whose first chunk has arrived and
whose transcription request is in flight when `stopRecording` runs. -/
def c2Session : AppState × SessionClosure := startRecording initialState

def c2Stopped : AppState := stopRecording (dataArrival ⟨[7]⟩ c2Session.1)

/-- The state after the in-flight transcription resolves, post-stop. -/
def c2Late : AppState :=
  transcriptionResolved c2Session.2 (Except.ok ⟨"Hello."⟩)
    (Except.ok ⟨"good", "helpful"⟩) true 5 c2Stopped

/-- Claim C2, refuting theorem at a concrete input: a transcription call
in flight at the moment `stopRecording` runs (the chunk arrived and the
request was issued, then the session was stopped) still runs its
continuation when it resolves: it appends an Utterance, initiates and
records an analysis, and invokes both callbacks — late resolutions are
not discarded. -/
theorem c2_late_resolution_mutates_after_stop :
    c2Stopped.conversation = [] ∧
    c2Stopped.analysis = [] ∧
    c2Stopped.mediaRecorder = some ⟨RecState.inactive, false⟩ ∧
    c2Late.conversation = [⟨"Hello.", 1, 5⟩] ∧
    c2Late.analysis = [⟨"good", "helpful", 0⟩] ∧
    utteranceAdds c2Late.trace = [⟨"Hello.", 1, 5⟩] := by decide

/-- The C3 scenario: a fresh session; tick 1 transcribes the cumulative
blob as `Hello world.`. -/
def c3Session : AppState × SessionClosure := startRecording initialState

def c3Tick1 : AppState :=
  tick c3Session.2 ⟨[1]⟩ (Except.ok ⟨"Hello world."⟩)
    (Except.ok ⟨"good", "f1"⟩) true 1 c3Session.1

/-- Tick 2 transcribes the cumulative blob (both chunks), repeating the
first sentence. -/
def c3Tick2 : AppState :=
  tick c3Session.2 ⟨[2]⟩ (Except.ok ⟨"Hello world. How are you."⟩)
    (Except.ok ⟨"medium", "f2"⟩) true 2 c3Tick1

/-- Claim C3, refuting theorem at a concrete input: the session's
handler filters against the `processedTranscripts` value captured when
it was installed (empty), not the current one, so a sentence already
surfaced in tick 1 (and duly marked processed in the current state) is
surfaced again by tick 2 when the cumulative transcript repeats it, and
is sent to the analysis adapter a second time. -/
theorem c3_processed_sentence_reemitted :
    c3Tick1.conversation.map Utterance.text = ["Hello world."] ∧
    c3Tick1.processedTranscripts = ["Hello world"] ∧
    c3Tick2.conversation.map Utterance.text = ["Hello world.", "Hello world.  How are you."] ∧
    analysisReqTexts c3Tick2.trace = ["Hello world.", "Hello world.  How are you."] ∧
    ((splitSentences "Hello world.  How are you.").map jsTrim).contains "Hello world" = true := by
  decide

/-- Claim C4, counterexample: the chunk whose transcription call failed
in tick 1 stays in `chunksRef.current`, and because every request sends
`new Blob(chunksRef.current)`, tick 2's transcription request contains
the failed chunk's bytes — they are not dropped. -/
theorem c4_failed_chunk_bytes_resent :
    let sc := startRecording initialState
    let s2 := tick sc.2 ⟨[1]⟩ (Except.error "HTTP error! status: 500")
      (Except.ok ⟨"good", "f"⟩) true 1 sc.1
    let s3 := tick sc.2 ⟨[2]⟩ (Except.ok ⟨"Hello."⟩) (Except.ok ⟨"good", "f"⟩) true 2 s2
    s2.chunks = [⟨[1]⟩] ∧
    s2.error = some "Failed to process audio chunk" ∧
    transcriptionRequest s2 ⟨[2]⟩ = [⟨[1]⟩, ⟨[2]⟩] ∧
    (Blob.mk [1]) ∈ transcriptionRequest s2 ⟨[2]⟩ ∧
    s3.trace.contains (Event.transcribeReq [⟨[1]⟩, ⟨[2]⟩]) = true := by decide

/-- The C5 scenario: a fresh session hit by a fatal encoder error. -/
def c5Errored : AppState := encoderError (startRecording initialState).1

/-- Claim C5, refuting theorem at a concrete input: after a fatal
encoder error the `onerror` handler only records an error message; the
recorder is inactive, so the subsequent `stopRecording` call takes the
else branch and is a no-op — the microphone stream's tracks are never
stopped on the errored exit path. -/
theorem c5_errored_exit_keeps_microphone_live :
    micLive (startRecording initialState).1 = true ∧
    c5Errored.error = some "Recording error occurred" ∧
    c5Errored.mediaRecorder = some ⟨RecState.inactive, true⟩ ∧
    stopRecording c5Errored = c5Errored ∧
    micLive (stopRecording c5Errored) = true := by decide

/-- The C6 scenario: a fresh session with two accepted deltas. -/
def c6Session : AppState × SessionClosure := startRecording initialState

def c6Tick1 : AppState :=
  tick c6Session.2 ⟨[1]⟩ (Except.ok ⟨"Hello."⟩) (Except.ok ⟨"good", "f1"⟩) true 1 c6Session.1

def c6Tick2 : AppState :=
  tick c6Session.2 ⟨[2]⟩ (Except.ok ⟨"Bye."⟩) (Except.ok ⟨"bad", "f2"⟩) false 2 c6Tick1

/-- Claim C6, refuting theorem at a concrete input: `utteranceIndex` is
computed from the `conversation.length` captured by the `onAnalysis`
closure at session start (0), so in a session with two accepted deltas
the AnalysisEntry created right after the second Utterance carries
`utteranceIndex = 0` although that Utterance occupies index 1. -/
theorem c6_utterance_index_stale :
    c6Tick2.conversation = [⟨"Hello.", 1, 1⟩, ⟨"Bye.", 2, 2⟩] ∧
    c6Tick2.analysis = [⟨"good", "f1", 0⟩, ⟨"bad", "f2", 0⟩] ∧
    c6Tick2.trace = [Event.transcribeReq [⟨[1]⟩],
      Event.utteranceAdd ⟨"Hello.", 1, 1⟩, Event.analysisReq "Hello.",
      Event.analysisAdd ⟨"good", "f1", 0⟩,
      Event.transcribeReq [⟨[1]⟩, ⟨[2]⟩],
      Event.utteranceAdd ⟨"Bye.", 2, 2⟩, Event.analysisReq "Bye.",
      Event.analysisAdd ⟨"bad", "f2", 0⟩] ∧
    (c6Tick2.analysis.get? 1).map AnalysisEntry.utteranceIndex = some 0 ∧
    (c6Tick2.conversation.get? 1).map Utterance.text = some "Bye." ∧
    (c6Tick2.conversation.get? 0).map Utterance.text = some "Hello." := by decide

/-- Claim C4, amended: when a tick's transcription call fails, that tick
produces no Utterance, no AnalysisEntry and no processed-set change; the
error message is recorded, recording continues (the recorder handle is
untouched), and the failed request itself is not retried — the tick's
trace holds exactly one transcription request.  However the chunk's
bytes stay in the accumulated buffer, so every later transcription
request (which always sends all accumulated chunks) contains them. -/
theorem c4_amended_failure_drops_tick_not_bytes (s : AppState)
    (cl : SessionClosure) (blob : Blob) (msg : String)
    (anaResp : Except String AnalysisBody) (coin : Bool) (now : Nat)
    (hb : 0 < blob.size) :
    let s2 := tick cl blob (Except.error msg) anaResp coin now s
    s2.conversation = s.conversation ∧
    s2.analysis = s.analysis ∧
    s2.processedTranscripts = s.processedTranscripts ∧
    s2.error = some "Failed to process audio chunk" ∧
    s2.chunks = s.chunks ++ [blob] ∧
    s2.mediaRecorder = s.mediaRecorder ∧
    s2.trace = s.trace ++ [Event.transcribeReq (s.chunks ++ [blob]),
      Event.errorSet "Failed to process audio chunk"] ∧
    (∀ blob2 : Blob, blob ∈ transcriptionRequest s2 blob2) := by
  simp [tick, dataArrival, transcriptionResolved, hb, transcriptionRequest]

/-- Claim C4 amended theorem, witnessed at a concrete input. -/
theorem c4_amended_failure_drops_tick_not_bytes_witness :
    0 < (Blob.mk [3]).size ∧
    (let s2 := tick ⟨[], 0⟩ ⟨[3]⟩ (Except.error "HTTP error! status: 500")
       (Except.ok ⟨"good", "f"⟩) true 0 initialState
     s2.conversation = initialState.conversation ∧
     s2.analysis = initialState.analysis ∧
     s2.processedTranscripts = initialState.processedTranscripts ∧
     s2.error = some "Failed to process audio chunk" ∧
     s2.chunks = initialState.chunks ++ [⟨[3]⟩] ∧
     s2.mediaRecorder = initialState.mediaRecorder ∧
     s2.trace = initialState.trace ++ [Event.transcribeReq (initialState.chunks ++ [⟨[3]⟩]),
       Event.errorSet "Failed to process audio chunk"] ∧
     (∀ blob2 : Blob, (Blob.mk [3]) ∈ transcriptionRequest s2 blob2)) :=
  ⟨by decide, c4_amended_failure_drops_tick_not_bytes initialState ⟨[], 0⟩ ⟨[3]⟩
    "HTTP error! status: 500" (Except.ok ⟨"good", "f"⟩) true 0 (by decide)⟩

/-- Claim C7: a tick whose computed delta is empty (every sentence of
the transcription result is whitespace-only or already in the handler's
captured processed set) appends no Utterance, issues no analysis
request, changes no log and is not treated as an error. -/
theorem c7_empty_delta_is_noop (s : AppState) (cl : SessionClosure) (blob : Blob)
    (t : Transcript) (anaResp : Except String AnalysisBody) (coin : Bool) (now : Nat)
    (h : newSentencesOf cl.snapshot t.text = []) :
    let s2 := tick cl blob (Except.ok t) anaResp coin now s
    s2.conversation = s.conversation ∧
    s2.analysis = s.analysis ∧
    s2.processedTranscripts = s.processedTranscripts ∧
    s2.error = s.error ∧
    utteranceAdds s2.trace = utteranceAdds s.trace ∧
    analysisReqTexts s2.trace = analysisReqTexts s.trace := by
  by_cases hb : blob.size > 0 <;> by_cases ht : t.text = "" <;>
    simp [tick, dataArrival, transcriptionResolved, hb, ht, h,
      utteranceAdds, analysisReqTexts]

/-- Claim C7 theorem, witnessed at a concrete input: the transcript
`Hello.` against a captured processed set already containing `Hello`. -/
theorem c7_empty_delta_is_noop_witness :
    newSentencesOf (["Hello"] : List String) "Hello." = [] ∧
    (let s2 := tick ⟨["Hello"], 0⟩ ⟨[1]⟩ (Except.ok ⟨"Hello."⟩)
       (Except.ok ⟨"good", "f"⟩) true 0 initialState
     s2.conversation = initialState.conversation ∧
     s2.analysis = initialState.analysis ∧
     s2.processedTranscripts = initialState.processedTranscripts ∧
     s2.error = initialState.error ∧
     utteranceAdds s2.trace = utteranceAdds initialState.trace ∧
     analysisReqTexts s2.trace = analysisReqTexts initialState.trace) :=
  ⟨by decide, c7_empty_delta_is_noop initialState ⟨["Hello"], 0⟩ ⟨[1]⟩ ⟨"Hello."⟩
    (Except.ok ⟨"good", "f"⟩) true 0 (by decide)⟩

/-- Claim C8: in every tick that produces new text, the Utterance is
appended to the conversation log, and the tick's trace shows the
analysis request strictly after the Utterance append; this holds for
every outcome of the analysis call, and in particular when the analysis
call fails the appended Utterance stays in the log unchanged while the
analysis log is untouched and only the error notice is recorded. -/
theorem c8_append_precedes_analysis (s : AppState) (cl : SessionClosure)
    (blob : Blob) (t : Transcript) (anaResp : Except String AnalysisBody)
    (coin : Bool) (now : Nat) (hb : 0 < blob.size) (ht : ¬ t.text = "")
    (hn : ¬ newSentencesOf cl.snapshot t.text = []) :
    let utt : Utterance := ⟨emittedText cl.snapshot t.text, determineSpeaker coin, now⟩
    let s2 := tick cl blob (Except.ok t) anaResp coin now s
    s2.conversation = s.conversation ++ [utt] ∧
    (∃ rest, s2.trace = s.trace ++ [Event.transcribeReq (s.chunks ++ [blob]),
        Event.utteranceAdd utt,
        Event.analysisReq (emittedText cl.snapshot t.text)] ++ rest) ∧
    (∀ e, anaResp = Except.error e →
      s2.analysis = s.analysis ∧ s2.error = some "Failed to process audio chunk") := by
  cases anaResp with
  | error e =>
      refine ⟨?_, ⟨[Event.errorSet "Failed to process audio chunk"], ?_⟩, fun e2 _ => ⟨?_, ?_⟩⟩ <;>
        simp [tick, dataArrival, transcriptionResolved, hb, ht, hn, emittedText]
  | ok a =>
      refine ⟨?_, ⟨[Event.analysisAdd ⟨a.rating, a.feedback, cl.capturedConversationLength⟩], ?_⟩,
        fun e2 h2 => by cases h2⟩ <;>
        simp [tick, dataArrival, transcriptionResolved, hb, ht, hn, emittedText]

/-- Claim C8 theorem, witnessed at a concrete input (with a failing
analysis call, exercising the no-rollback clause). -/
theorem c8_append_precedes_analysis_witness :
    0 < (Blob.mk [1]).size ∧
    ¬ (Transcript.mk "Hi.").text = "" ∧
    ¬ newSentencesOf ([] : List String) "Hi." = [] ∧
    (let utt : Utterance := ⟨emittedText [] "Hi.", determineSpeaker true, 4⟩
     let s2 := tick ⟨[], 0⟩ ⟨[1]⟩ (Except.ok ⟨"Hi."⟩)
       (Except.error "HTTP error! status: 500") true 4 initialState
     s2.conversation = initialState.conversation ++ [utt] ∧
     (∃ rest, s2.trace = initialState.trace ++
        [Event.transcribeReq (initialState.chunks ++ [⟨[1]⟩]),
         Event.utteranceAdd utt, Event.analysisReq (emittedText [] "Hi.")] ++ rest) ∧
     (∀ e, (Except.error "HTTP error! status: 500" : Except String AnalysisBody) =
         Except.error e →
       s2.analysis = initialState.analysis ∧
       s2.error = some "Failed to process audio chunk")) :=
  ⟨by decide, by decide, by decide,
    c8_append_precedes_analysis initialState ⟨[], 0⟩ ⟨[1]⟩ ⟨"Hi."⟩
      (Except.error "HTTP error! status: 500") true 4 (by decide) (by decide) (by decide)⟩

/-- Claim C9: `stopRecording` is idempotent — after one call the
recorder is no longer in the `recording` state, so a second call takes
the no-op branch and returns the state unchanged — and with no active
session (no recorder at all) it is a no-op as well.  The function is
total, so no call can throw. -/
theorem c9_stopRecording_idempotent (s : AppState) :
    stopRecording (stopRecording s) = stopRecording s ∧
    (s.mediaRecorder = none → stopRecording s = s) := by
  constructor
  · cases hmr : s.mediaRecorder with
    | none => simp [stopRecording, hmr]
    | some r =>
        cases hr : r.state <;> simp [stopRecording, hmr, hr]
  · intro hmr
    simp [stopRecording, hmr]

/-- Claim C9 theorem, witnessed at a concrete input: a freshly started
session, stopped twice, and the sessionless initial state. -/
theorem c9_stopRecording_idempotent_witness :
    stopRecording (stopRecording (startRecording initialState).1) =
      stopRecording (startRecording initialState).1 ∧
    stopRecording initialState = initialState :=
  ⟨(c9_stopRecording_idempotent (startRecording initialState).1).1,
   (c9_stopRecording_idempotent initialState).2 rfl⟩

/-- Claim C10, counterexample: `startRecording` does not touch
`processedTranscripts` — only a `stopRecording` from the `recording`
state clears it.  After a session that ends through an encoder error
(where `stopRecording` is a no-op), the next session starts with the old
set as both its state and its handler snapshot, and the transcript
`Hello.` — surfaced in the previous session — produces no Utterance in
the new session. -/
theorem c10_cursor_survives_session_start :
    let sc := startRecording initialState
    let s2 := tick sc.2 ⟨[1]⟩ (Except.ok ⟨"Hello."⟩) (Except.ok ⟨"good", "f"⟩) true 1 sc.1
    let s3 := stopRecording (encoderError s2)
    let sc2 := startRecording s3
    let s6 := tick sc2.2 ⟨[9]⟩ (Except.ok ⟨"Hello."⟩) (Except.ok ⟨"good", "f2"⟩) true 9 sc2.1
    s3.processedTranscripts = ["Hello"] ∧
    sc2.1.processedTranscripts = ["Hello"] ∧
    sc2.2.snapshot = ["Hello"] ∧
    sc2.1.mediaRecorder = some ⟨RecState.recording, true⟩ ∧
    s6.conversation = sc2.1.conversation ∧
    utteranceAdds s6.trace = utteranceAdds sc2.1.trace := by decide

/-- Claim C10, amended: `startRecording` leaves `processedTranscripts`
unchanged and makes it the new handler's snapshot; the set is cleared
only by `stopRecording` from the `recording` state (so after a normally
stopped session the next session does start with an empty cursor). -/
theorem c10_amended_cursor_cleared_on_stop (s : AppState) :
    (startRecording s).1.processedTranscripts = s.processedTranscripts ∧
    (startRecording s).2.snapshot = s.processedTranscripts ∧
    (∀ r, s.mediaRecorder = some r → r.state = RecState.recording →
      (stopRecording s).processedTranscripts = []) := by
  refine ⟨rfl, rfl, fun r hmr hr => ?_⟩
  simp [stopRecording, hmr, hr]

/-- Claim C10 amended theorem, witnessed at a concrete input: a freshly
started session. -/
theorem c10_amended_cursor_cleared_on_stop_witness :
    (startRecording (startRecording initialState).1).1.processedTranscripts =
      (startRecording initialState).1.processedTranscripts ∧
    (startRecording (startRecording initialState).1).2.snapshot =
      (startRecording initialState).1.processedTranscripts ∧
    (stopRecording (startRecording initialState).1).processedTranscripts = [] :=
  ⟨(c10_amended_cursor_cleared_on_stop (startRecording initialState).1).1,
   (c10_amended_cursor_cleared_on_stop (startRecording initialState).1).2.1,
   (c10_amended_cursor_cleared_on_stop (startRecording initialState).1).2.2
     ⟨RecState.recording, true⟩ rfl rfl⟩

end Therapy
